import Mathlib

/-!
Shallow embedding of the realtime chat client core of the repository:

* `ChatWebSocket` (frontend-chat/src/services/websocket.ts): connection
  lifecycle, bounded reconnect policy, send, and the transport callbacks.
* The frame dispatcher and the UI send handler of `ChatInterface`
  (frontend-chat/src/components/ChatInterface.tsx).
* The session-switch effect of `ChatInterface` (the React `useEffect` keyed
  on `sessionId`), modelled as an action trace.

Machine state is passed explicitly; the browser runtime (socket lifecycle
events, timers) is modelled as an event alphabet folded over the state.
-/

namespace BdChat

/-- The readyState values of a browser WebSocket object. -/
inductive ReadyState
  | connecting
  | opened
  | closing
  | closed
deriving DecidableEq, Repr

/-- Source: `maxReconnectAttempts = 5` in websocket.ts. -/
def maxReconnectAttempts : Nat := 5

/-- Source: `reconnectDelay = 1000` in websocket.ts. -/
def reconnectDelay : Nat := 1000

/-- The mutable fields of a `ChatWebSocket` instance, together with the
runtime bookkeeping needed to observe its behaviour: `ws` holds the current
socket as a fresh identifier paired with its readyState (`none` models the
JS `null`), `nextSocketId` numbers the sockets ever constructed,
`pendingTimers` holds the delays of reconnect timers that were scheduled by
`setTimeout` and have not yet fired (in scheduling order), and
`scheduledLog` records every reconnect delay ever scheduled. -/
structure ChatWebSocketState where
  ws : Option (Nat × ReadyState)
  nextSocketId : Nat
  reconnectAttempts : Nat
  isReconnecting : Bool
  isManuallyDisconnected : Bool
  pendingTimers : List Nat
  scheduledLog : List Nat
deriving DecidableEq, Repr

/-- A freshly constructed `ChatWebSocket` (the constructor only stores the
session id; all flags start at their declared initial values). -/
def initState : ChatWebSocketState :=
  { ws := none
    nextSocketId := 0
    reconnectAttempts := 0
    isReconnecting := false
    isManuallyDisconnected := false
    pendingTimers := []
    scheduledLog := [] }

namespace ChatWebSocket

/-- JS `this.ws?.readyState` (optional chaining on a null socket). -/
def readyState (s : ChatWebSocketState) : Option ReadyState :=
  s.ws.map Prod.snd

/-- `connect()` (websocket.ts lines 25-32): no-op when the current socket is
OPEN or CONNECTING; otherwise clear the manual-disconnect flag and create a
new socket (a fresh id in CONNECTING state). The wiring of the four
transport callbacks is modelled by the `handleOpen` / `onmessage` /
`handleClose` event functions below. -/
def connect (s : ChatWebSocketState) : ChatWebSocketState :=
  if readyState s = some ReadyState.opened ∨ readyState s = some ReadyState.connecting then
    s
  else
    { s with
        isManuallyDisconnected := false
        ws := some (s.nextSocketId, ReadyState.connecting)
        nextSocketId := s.nextSocketId + 1 }

/-- `disconnect()` (websocket.ts lines 71-79): set the manual flag, clear the
reconnect bookkeeping, close and release the socket handle. The released
socket object may still deliver a late close event, modelled as a
`sockClose` event whose id no longer matches `ws`. -/
def disconnect (s : ChatWebSocketState) : ChatWebSocketState :=
  { s with
      isManuallyDisconnected := true
      isReconnecting := false
      reconnectAttempts := 0
      ws := none }

/-- `attemptReconnect()` (websocket.ts lines 121-135): guarded by the manual
flag, the `isReconnecting` flag and the attempt bound; on success it marks
reconnecting, increments the counter and schedules a timer for
`reconnectDelay * reconnectAttempts`. -/
def attemptReconnect (s : ChatWebSocketState) : ChatWebSocketState :=
  if s.isManuallyDisconnected = true ∨ s.isReconnecting = true ∨
      maxReconnectAttempts ≤ s.reconnectAttempts then
    s
  else
    { s with
        isReconnecting := true
        reconnectAttempts := s.reconnectAttempts + 1
        pendingTimers := s.pendingTimers ++ [reconnectDelay * (s.reconnectAttempts + 1)]
        scheduledLog := s.scheduledLog ++ [reconnectDelay * (s.reconnectAttempts + 1)] }

/-- Transport-open event for socket `i` (websocket.ts lines 34-39): the
runtime moves socket `i` to OPEN when it is still the current socket, and
the `onopen` closure resets the reconnect bookkeeping (it reads `this`, so
it runs even for a stale socket). Invocation of the registered open
handlers has no effect on this state. -/
def handleOpen (i : Nat) (s : ChatWebSocketState) : ChatWebSocketState :=
  let s1 :=
    if s.ws.map Prod.fst = some i then
      { s with ws := s.ws.map fun p => (p.1, ReadyState.opened) }
    else s
  { s1 with reconnectAttempts := 0, isReconnecting := false }

/-- Transport-close event for socket `i` (websocket.ts lines 57-68): the
runtime moves socket `i` to CLOSED when it is still the current socket; the
`onclose` closure invokes the close handlers and then, unless manually
disconnected, calls `attemptReconnect`. -/
def handleClose (i : Nat) (s : ChatWebSocketState) : ChatWebSocketState :=
  let s1 :=
    if s.ws.map Prod.fst = some i then
      { s with ws := s.ws.map fun p => (p.1, ReadyState.closed) }
    else s
  if s1.isManuallyDisconnected = true then s1 else attemptReconnect s1

/-- A scheduled reconnect timer fires (the `setTimeout` callback of
`attemptReconnect`, websocket.ts lines 129-134): the earliest pending timer
is consumed; the callback checks the manual-disconnect flag and only then
calls `connect()`. Timers are never cancelled by the source, only guarded. -/
def fireTimer (s : ChatWebSocketState) : ChatWebSocketState :=
  match s.pendingTimers with
  | [] => s
  | _ :: rest =>
    let s1 := { s with pendingTimers := rest }
    if s1.isManuallyDisconnected = true then s1 else connect s1

/-- `isConnected()` (websocket.ts lines 141-143). -/
def isConnected (s : ChatWebSocketState) : Bool :=
  decide (readyState s = some ReadyState.opened)

end ChatWebSocket

/-- The event alphabet driving one `ChatWebSocket`: external `connect()` /
`disconnect()` calls, transport open/close events of socket `i`, and the
firing of the earliest scheduled reconnect timer. -/
inductive WsEvent
  | connectCall
  | disconnectCall
  | sockOpen (i : Nat)
  | sockClose (i : Nat)
  | timerFire
deriving DecidableEq, Repr

/-- One step of the event semantics. -/
def step (s : ChatWebSocketState) : WsEvent → ChatWebSocketState
  | WsEvent.connectCall => ChatWebSocket.connect s
  | WsEvent.disconnectCall => ChatWebSocket.disconnect s
  | WsEvent.sockOpen i => ChatWebSocket.handleOpen i s
  | WsEvent.sockClose i => ChatWebSocket.handleClose i s
  | WsEvent.timerFire => ChatWebSocket.fireTimer s

/-- Run a sequence of events. -/
def run (s : ChatWebSocketState) (es : List WsEvent) : ChatWebSocketState :=
  es.foldl step s

/-- Message role (types/index.ts: `role: 'user' | 'assistant' | 'system'`). -/
inductive Role
  | user
  | assistant
  | system
deriving DecidableEq, Repr

/-- A chat message (types/index.ts `Message`); `metadata` is an opaque record
in the source and carries no behaviour, so it is omitted. -/
structure Message where
  id : Option Nat
  session : Option Nat
  role : Role
  content : String
  created_at : String
  rag_context : Option String
deriving DecidableEq, Repr

/-- The incoming frames discriminated on their `type` tag, exactly the cases
switched on by `handleWebSocketMessage` (ChatInterface.tsx lines 40-82) plus
a catch-all for unrecognized tags, on which the switch falls through. -/
inductive WebSocketMessage
  | session_info (session : String)
  | history (messages : List Message)
  | message (message : Message)
  | stream_start (message_id : Option Nat)
  | stream_token (token : String)
  | stream_end (message : Message)
  | stream_error (error : String)
  | error (error : String)
  | unrecognized (tag : String)
deriving DecidableEq, Repr

/-- `this.ws.onmessage` (websocket.ts lines 41-48): `JSON.parse` inside a
try/catch, modelled by an explicit parse function returning `Option`; on
success every registered message handler receives the decoded frame (the
returned list holds the frames delivered to the handler chain), on failure
the error is logged and nothing is delivered. The manager state is not
touched in either branch. -/
def ChatWebSocket.onmessage (parse : String → Option WebSocketMessage)
    (s : ChatWebSocketState) (txt : String) :
    ChatWebSocketState × List WebSocketMessage :=
  match parse txt with
  | some m => (s, [m])
  | none => (s, [])

/-- Outcome of `ChatWebSocket.send`. -/
inductive SendOutcome
  | transmitted (wire : String)
  | notConnected
deriving DecidableEq, Repr

/-- `send(message)` (websocket.ts lines 81-87): transmit the serialized
command iff the socket is OPEN, otherwise log a not-connected error and drop
the command; `encode` stands for `JSON.stringify`. No field of the manager
is mutated in either branch, and both branches are total (nothing throws). -/
def ChatWebSocket.send {α : Type} (encode : α → String)
    (s : ChatWebSocketState) (m : α) : SendOutcome :=
  if ChatWebSocket.readyState s = some ReadyState.opened then
    SendOutcome.transmitted (encode m)
  else
    SendOutcome.notConnected

/-- The component state mutated by `handleWebSocketMessage`
(ChatInterface.tsx): the transcript, the streaming flag and the streaming
buffer. -/
structure ChatState where
  messages : List Message
  isStreaming : Bool
  streamingContent : String
deriving DecidableEq, Repr

/-- `handleWebSocketMessage` (ChatInterface.tsx lines 40-82), as a state
transformer. The `flushSync` around the `stream_token` case forces each
buffer mutation to commit before the next frame is handled; in this explicit
state-passing embedding every intermediate state of the fold is exactly one
such committed state. -/
def handleWebSocketMessage (s : ChatState) (m : WebSocketMessage) : ChatState :=
  match m with
  | WebSocketMessage.session_info _ => s
  | WebSocketMessage.history msgs => { s with messages := msgs }
  | WebSocketMessage.message msg => { s with messages := s.messages ++ [msg] }
  | WebSocketMessage.stream_start _ =>
      { s with isStreaming := true, streamingContent := "" }
  | WebSocketMessage.stream_token t =>
      { s with streamingContent := s.streamingContent ++ t }
  | WebSocketMessage.stream_end msg =>
      { messages := s.messages ++ [msg], isStreaming := false, streamingContent := "" }
  | WebSocketMessage.stream_error _ =>
      { s with isStreaming := false, streamingContent := "" }
  | WebSocketMessage.error _ => s
  | WebSocketMessage.unrecognized _ => s

/-- Dispatch a sequence of decoded frames in delivery order. -/
def runFrames (s : ChatState) (fs : List WebSocketMessage) : ChatState :=
  fs.foldl handleWebSocketMessage s

/-- The outgoing command object built by `handleSendMessage`
(ChatInterface.tsx lines 136-140). -/
structure OutCommand where
  type : String
  content : String
  use_rag : Bool
deriving DecidableEq, Repr

/-- The pieces of `ChatInterface` state read by `handleSendMessage`:
the input field, the streaming flag, the RAG toggle, and whether
`wsRef.current` is non-null. -/
structure ChatUIState where
  inputMessage : String
  isStreaming : Bool
  useRAG : Bool
  hasWs : Bool
deriving DecidableEq, Repr

/-- `handleSendMessage` (ChatInterface.tsx lines 133-143): bail out when the
trimmed input is empty (falsy), when there is no socket reference, or while
streaming; otherwise send `{type:"message", content: trimmed, use_rag}` and
clear the input. The returned option is the command handed to
`ChatWebSocket.send`, `none` when nothing is sent. -/
def handleSendMessage (s : ChatUIState) : ChatUIState × Option OutCommand :=
  if s.inputMessage.trim = "" ∨ s.hasWs = false ∨ s.isStreaming = true then
    (s, none)
  else
    ({ s with inputMessage := "" },
     some { type := "message", content := s.inputMessage.trim, use_rag := s.useRAG })

/-- Observable actions of the session-switch effect of `ChatInterface`
(the `useEffect` keyed on `sessionId`, lines 84-131). -/
inductive BindAction
  | cancelScheduledConnect
  | clearHandlersOld
  | disconnectOld
  | dropOldRef
  | constructNew (sid : String)
  | registerHandlers
  | scheduleConnect (delayMs : Nat)
  | connectNow
deriving DecidableEq, Repr

/-- The binding state: `wsRef` names the session id of the currently owned
`ChatWebSocket` (the `wsRef.current` slot), `pendingConnect` the session id
of a scheduled, not yet fired, debounced `connect()` timer. -/
structure BindingState where
  wsRef : Option String
  pendingConnect : Option String
deriving DecidableEq, Repr

/-- The effect cleanup (ChatInterface.tsx lines 122-130): cancel the connect
timer with `clearTimeout`, then, when a manager is owned, clear its handlers,
disconnect it and null the reference. -/
def cleanupEffect (st : BindingState) : BindingState × List BindAction :=
  match st.wsRef with
  | some _ =>
      ({ wsRef := none, pendingConnect := none },
       [BindAction.cancelScheduledConnect, BindAction.clearHandlersOld,
        BindAction.disconnectOld, BindAction.dropOldRef])
  | none => ({ st with pendingConnect := none }, [BindAction.cancelScheduledConnect])

/-- The effect body (ChatInterface.tsx lines 84-120): bail out on an empty
session id; disconnect and drop a still-owned manager (lines 95-98, without
clearing its handlers); construct a fresh `ChatWebSocket`, register the four
handlers, and schedule `connect()` after a 100 ms debounce. -/
def setupEffect (sid : String) (st : BindingState) : BindingState × List BindAction :=
  if sid = "" then (st, [])
  else
    let cleaned :=
      match st.wsRef with
      | some _ =>
          ({ st with wsRef := none }, [BindAction.disconnectOld, BindAction.dropOldRef])
      | none => (st, ([] : List BindAction))
    ({ wsRef := some sid, pendingConnect := some sid },
     cleaned.2 ++ [BindAction.constructNew sid, BindAction.registerHandlers,
                   BindAction.scheduleConnect 100])

/-- A change of the current session id: React first runs the cleanup of the
previous effect, then the new effect body. -/
def switchSession (sid : String) (st : BindingState) : BindingState × List BindAction :=
  let c := cleanupEffect st
  let e := setupEffect sid c.1
  (e.1, c.2 ++ e.2)

/-- The debounced connect timer fires: `ws.connect()` runs iff the timer was
not cancelled. -/
def bindingTimerFire (st : BindingState) : BindingState × List BindAction :=
  match st.pendingConnect with
  | some _ => ({ st with pendingConnect := none }, [BindAction.connectNow])
  | none => (st, [])

/-- An Idle dispatcher state with an empty transcript and empty buffer. -/
def idleChatState : ChatState :=
  { messages := [], isStreaming := false, streamingContent := "" }

/-- Five consecutive unexpected transport closes with no successful open in
between: the initial external `connect()` creates socket 0, which closes;
the single scheduled reconnect timer fires and creates socket 1, which also
closes; three further external `connect()` calls create sockets 2, 3, 4,
each of which closes without ever opening. -/
def fiveCloseTrace : List WsEvent :=
  [WsEvent.connectCall, WsEvent.sockClose 0, WsEvent.timerFire, WsEvent.sockClose 1,
   WsEvent.connectCall, WsEvent.sockClose 2, WsEvent.connectCall, WsEvent.sockClose 3,
   WsEvent.connectCall, WsEvent.sockClose 4]

/-- The purely internal variant: `connect()`, socket 0 closes, the scheduled
reconnect fires and creates socket 1, which closes as well. From here the
manager is inert: no timer is pending and no further event is produced. -/
def twoCloseTrace : List WsEvent :=
  [WsEvent.connectCall, WsEvent.sockClose 0, WsEvent.timerFire, WsEvent.sockClose 1]

/-- C1: evaluation of the code at the claim's scenario. Across five
consecutive unexpected closes with no successful open, the manager schedules
exactly one reconnect timer, with delay 1000, instead of the five delays
1000, 2000, 3000, 4000, 5000 the claim states: `attemptReconnect` sets
`isReconnecting`, which only a successful open (or `disconnect`) clears, so
every close after the first returns early from `attemptReconnect`. The
attempt counter stalls at 1 and, in the internal variant, no timer remains
pending after the single failed retry, so no further attempt can ever fire. -/
theorem reconnect_gives_up_after_one_attempt :
    (run initState fiveCloseTrace).scheduledLog = [1000] ∧
    (run initState fiveCloseTrace).reconnectAttempts = 1 ∧
    (run initState fiveCloseTrace).isReconnecting = true ∧
    (run initState fiveCloseTrace).isManuallyDisconnected = false ∧
    (run initState twoCloseTrace).scheduledLog = [1000] ∧
    (run initState twoCloseTrace).pendingTimers = [] := by
  decide

/-- C2 counterexample: a `stream_token` frame dispatched in the Idle state is
not ignored; the token is appended to the stream buffer. -/
theorem stream_token_idle_mutates_buffer :
    idleChatState.isStreaming = false ∧
    (handleWebSocketMessage idleChatState
        (WebSocketMessage.stream_token "x")).streamingContent
      ≠ idleChatState.streamingContent := by
  decide

/-- C2 (amended): a `stream_token` frame dispatched while Idle leaves the
transcript unchanged and causes no transition (the state stays Idle), but
the token is appended to the stream buffer; the `stream_token` case of the
dispatcher has no Idle guard. -/
theorem stream_token_idle_effect (s : ChatState) (t : String)
    (h : s.isStreaming = false) :
    (handleWebSocketMessage s (WebSocketMessage.stream_token t)).messages
      = s.messages ∧
    (handleWebSocketMessage s (WebSocketMessage.stream_token t)).isStreaming
      = false ∧
    (handleWebSocketMessage s (WebSocketMessage.stream_token t)).streamingContent
      = s.streamingContent ++ t := by
  refine ⟨rfl, ?_, rfl⟩
  simpa [handleWebSocketMessage] using h

/-- Witness for C2: the amended statement at a concrete Idle state. -/
theorem stream_token_idle_effect_witness :
    (handleWebSocketMessage idleChatState
        (WebSocketMessage.stream_token "Hi")).streamingContent = "Hi" :=
  (stream_token_idle_effect idleChatState "Hi" rfl).2.2

/-- C7: a transport message whose text does not parse as JSON is dropped
inside the message callback: no onMessage handler receives a frame, nothing
reaches the dispatcher, the manager state (hence the readyState of the open
socket) is untouched, and the callback returns normally (the failure path is
a total branch of the embedding, mirroring the try/catch that logs the
error). -/
theorem malformed_frame_dropped (parse : String → Option WebSocketMessage)
    (s : ChatWebSocketState) (txt : String) (h : parse txt = none) :
    ChatWebSocket.onmessage parse s txt = (s, []) := by
  simp [ChatWebSocket.onmessage, h]

/-- Witness for C7: the malformed text of the spec example, against a parse
function rejecting it. -/
theorem malformed_frame_dropped_witness :
    ChatWebSocket.onmessage (fun _ => none) initState "\x7bnot json"
      = (initState, []) :=
  malformed_frame_dropped (fun _ => none) initState "\x7bnot json" rfl

/-- C8: `send` transmits the encoded command iff the socket readyState is
OPEN; in every other state (including a released or absent socket) it
reports a not-connected condition and drops the command, with no queueing
and no exception. -/
theorem send_requires_open {α : Type} (encode : α → String)
    (s : ChatWebSocketState) (m : α) :
    (ChatWebSocket.readyState s ≠ some ReadyState.opened →
       ChatWebSocket.send encode s m = SendOutcome.notConnected) ∧
    (ChatWebSocket.readyState s = some ReadyState.opened →
       ChatWebSocket.send encode s m = SendOutcome.transmitted (encode m)) := by
  constructor
  · intro h
    simp [ChatWebSocket.send, h]
  · intro h
    simp [ChatWebSocket.send, h]

/-- Witness for C8: sending on a freshly constructed manager (no socket at
all) is reported as not connected. -/
theorem send_requires_open_witness :
    ChatWebSocket.send (fun c : String => c) initState "hello"
      = SendOutcome.notConnected :=
  (send_requires_open (fun c : String => c) initState "hello").1 (by decide)

/-- In a manually disconnected state with a released socket handle, every
event other than an external `connect()` call preserves the manual flag and
the absent socket, and schedules nothing. -/
lemma step_stays_disconnected (s : ChatWebSocketState) (e : WsEvent)
    (hm : s.isManuallyDisconnected = true) (hw : s.ws = none)
    (he : e ≠ WsEvent.connectCall) :
    (step s e).isManuallyDisconnected = true ∧ (step s e).ws = none ∧
    (step s e).scheduledLog = s.scheduledLog := by
  cases e with
  | connectCall => exact absurd rfl he
  | disconnectCall => simp [step, ChatWebSocket.disconnect, hm, hw]
  | sockOpen i => simp [step, ChatWebSocket.handleOpen, hm, hw]
  | sockClose i => simp [step, ChatWebSocket.handleClose, hm, hw]
  | timerFire =>
      cases hp : s.pendingTimers with
      | nil => simp [step, ChatWebSocket.fireTimer, hp, hm, hw]
      | cons d rest => simp [step, ChatWebSocket.fireTimer, hp, hm, hw]

/-- `run` on a one-step prefix. -/
lemma run_cons (s : ChatWebSocketState) (e : WsEvent) (es : List WsEvent) :
    run s (e :: es) = run (step s e) es := rfl

/-- Trace form of `step_stays_disconnected`. -/
lemma run_stays_disconnected (es : List WsEvent) (s : ChatWebSocketState)
    (hm : s.isManuallyDisconnected = true) (hw : s.ws = none)
    (he : ∀ e ∈ es, e ≠ WsEvent.connectCall) :
    (run s es).isManuallyDisconnected = true ∧ (run s es).ws = none ∧
    (run s es).scheduledLog = s.scheduledLog := by
  induction es generalizing s with
  | nil => exact ⟨hm, hw, rfl⟩
  | cons e es ih =>
      have h1 := step_stays_disconnected s e hm hw (he e (List.mem_cons_self e es))
      have h2 := ih (step s e) h1.1 h1.2.1 fun x hx => he x (List.mem_cons_of_mem e hx)
      exact ⟨h2.1, h2.2.1, by rw [run_cons, h2.2.2, h1.2.2]⟩

/-- C3: after `disconnect()`, `isConnected()` is false and stays false, and
no reconnect delay is ever scheduled, across any sequence of subsequent
events that contains no external `connect()` call — late close events from
the released socket and already-scheduled reconnect timers included.
Moreover a scheduled reconnect callback firing in a manually disconnected
state only consumes its timer and changes nothing else; in particular it
does not call `connect()`. -/
theorem disconnect_prevents_reconnect (s : ChatWebSocketState)
    (es : List WsEvent) (he : ∀ e ∈ es, e ≠ WsEvent.connectCall) :
    ChatWebSocket.isConnected (run (ChatWebSocket.disconnect s) es) = false ∧
    (run (ChatWebSocket.disconnect s) es).scheduledLog = s.scheduledLog ∧
    (∀ t : ChatWebSocketState, t.isManuallyDisconnected = true →
       ChatWebSocket.fireTimer t = { t with pendingTimers := t.pendingTimers.tail }) := by
  have h0 := run_stays_disconnected es (ChatWebSocket.disconnect s) rfl rfl he
  refine ⟨?_, h0.2.2, ?_⟩
  · simp [ChatWebSocket.isConnected, ChatWebSocket.readyState, h0.2.1]
  · intro t ht
    obtain ⟨w, nid, ra, ir, imd, pt, sl⟩ := t
    dsimp only at ht
    subst ht
    cases pt with
    | nil => simp [ChatWebSocket.fireTimer]
    | cons d rest => simp [ChatWebSocket.fireTimer]

/-- Witness for C3: a disconnected manager that still had a pending timer
and receives a late close of its old socket, the timer, and a further
disconnect call. -/
theorem disconnect_prevents_reconnect_witness :
    ChatWebSocket.isConnected
      (run (ChatWebSocket.disconnect
              { ws := some (0, ReadyState.opened), nextSocketId := 1,
                reconnectAttempts := 1, isReconnecting := true,
                isManuallyDisconnected := false, pendingTimers := [1000],
                scheduledLog := [1000] })
           [WsEvent.sockClose 0, WsEvent.timerFire, WsEvent.disconnectCall])
      = false :=
  (disconnect_prevents_reconnect
      { ws := some (0, ReadyState.opened), nextSocketId := 1,
        reconnectAttempts := 1, isReconnecting := true,
        isManuallyDisconnected := false, pendingTimers := [1000],
        scheduledLog := [1000] }
      [WsEvent.sockClose 0, WsEvent.timerFire, WsEvent.disconnectCall]
      (by decide)).1

/-- Dispatching a block of `stream_token` frames folds the tokens onto the
streaming buffer, in arrival order, and changes nothing else. -/
lemma runFrames_tokens (toks : List String) (s : ChatState) :
    runFrames s (toks.map WebSocketMessage.stream_token)
      = { s with streamingContent :=
            toks.foldl (fun a b => a ++ b) s.streamingContent } := by
  induction toks generalizing s with
  | nil => rfl
  | cons t ts ih =>
      have h1 : runFrames s ((t :: ts).map WebSocketMessage.stream_token)
          = runFrames (handleWebSocketMessage s (WebSocketMessage.stream_token t))
              (ts.map WebSocketMessage.stream_token) := rfl
      rw [h1, ih]
      rfl

/-- C4: for the dispatched frame sequence `stream_start`,
`stream_token t1 … tk …`, `stream_end m`, starting from Idle: after the
k-th token the buffer holds exactly the left-to-right concatenation of the
first k tokens (each such intermediate state is a committed state of the
fold, hence observable before the next frame is handled), the transcript is
untouched while streaming, and the final state appends exactly the
server-provided message `m` to the transcript, clears the buffer and
returns to Idle. -/
theorem stream_sequence_correct (s : ChatState) (toks : List String)
    (m : Message) (_h : s.isStreaming = false) :
    (∀ k, k ≤ toks.length →
       (runFrames s (WebSocketMessage.stream_start none ::
           (toks.take k).map WebSocketMessage.stream_token)).streamingContent
         = (toks.take k).foldl (fun a b => a ++ b) "" ∧
       (runFrames s (WebSocketMessage.stream_start none ::
           (toks.take k).map WebSocketMessage.stream_token)).isStreaming = true ∧
       (runFrames s (WebSocketMessage.stream_start none ::
           (toks.take k).map WebSocketMessage.stream_token)).messages
         = s.messages) ∧
    runFrames s (WebSocketMessage.stream_start none ::
        (toks.map WebSocketMessage.stream_token ++ [WebSocketMessage.stream_end m]))
      = { messages := s.messages ++ [m], isStreaming := false,
          streamingContent := "" } := by
  constructor
  · intro k _
    have h1 : runFrames s (WebSocketMessage.stream_start none ::
          (toks.take k).map WebSocketMessage.stream_token)
        = runFrames { s with isStreaming := true, streamingContent := "" }
            ((toks.take k).map WebSocketMessage.stream_token) := rfl
    rw [h1, runFrames_tokens]
    exact ⟨rfl, rfl, rfl⟩
  · have h1 : runFrames s (WebSocketMessage.stream_start none ::
          (toks.map WebSocketMessage.stream_token ++ [WebSocketMessage.stream_end m]))
        = handleWebSocketMessage
            (runFrames { s with isStreaming := true, streamingContent := "" }
               (toks.map WebSocketMessage.stream_token))
            (WebSocketMessage.stream_end m) := by
      simp only [runFrames, List.foldl_cons, List.foldl_append, List.foldl_nil]
      rfl
    rw [h1, runFrames_tokens]
    rfl

/-- The assistant message of the spec example. -/
def helloWorldMsg : Message :=
  { id := some 1, session := none, role := Role.assistant,
    content := "Hello world", created_at := "2024-01-01T10:00:00Z",
    rag_context := none }

/-- Witness for C4: the spec example sequence with tokens `"Hello"` and
`" world"` from the Idle state. -/
theorem stream_sequence_correct_witness :
    runFrames idleChatState (WebSocketMessage.stream_start none ::
        (["Hello", " world"].map WebSocketMessage.stream_token ++
          [WebSocketMessage.stream_end helloWorldMsg]))
      = { messages := [helloWorldMsg], isStreaming := false,
          streamingContent := "" } :=
  (stream_sequence_correct idleChatState ["Hello", " world"] helloWorldMsg rfl).2

/-- C5: `connect()` in Open or Connecting state is the identity on the whole
manager state — no socket is created, no flag (the manual-disconnect flag
included) is touched — and from any state whatsoever a second consecutive
`connect()` is absorbed by the first, so two consecutive calls construct at
most one underlying socket. -/
theorem connect_idempotent (s : ChatWebSocketState)
    (h : ChatWebSocket.readyState s = some ReadyState.opened ∨
         ChatWebSocket.readyState s = some ReadyState.connecting) :
    ChatWebSocket.connect s = s ∧
    (∀ t : ChatWebSocketState,
       ChatWebSocket.connect (ChatWebSocket.connect t) = ChatWebSocket.connect t) ∧
    (∀ t : ChatWebSocketState,
       (ChatWebSocket.connect (ChatWebSocket.connect t)).nextSocketId
         ≤ t.nextSocketId + 1) := by
  have hid : ∀ t : ChatWebSocketState,
      ChatWebSocket.connect (ChatWebSocket.connect t) = ChatWebSocket.connect t := by
    intro t
    by_cases hc : ChatWebSocket.readyState t = some ReadyState.opened ∨
        ChatWebSocket.readyState t = some ReadyState.connecting
    · have h1 : ChatWebSocket.connect t = t := by
        rw [ChatWebSocket.connect, if_pos hc]
      rw [h1]
      exact h1
    · have h1 : ChatWebSocket.connect t
          = { t with isManuallyDisconnected := false,
                     ws := some (t.nextSocketId, ReadyState.connecting),
                     nextSocketId := t.nextSocketId + 1 } := by
        rw [ChatWebSocket.connect, if_neg hc]
      rw [h1, ChatWebSocket.connect]
      split
      · rfl
      · rename_i hcond
        exact absurd (Or.inr rfl) hcond
  refine ⟨by rw [ChatWebSocket.connect, if_pos h], hid, ?_⟩
  intro t
  rw [hid t]
  by_cases hc : ChatWebSocket.readyState t = some ReadyState.opened ∨
      ChatWebSocket.readyState t = some ReadyState.connecting
  · rw [ChatWebSocket.connect, if_pos hc]
    exact Nat.le_succ _
  · rw [ChatWebSocket.connect, if_neg hc]

/-- A manager whose socket is open. -/
def openManagerState : ChatWebSocketState :=
  { ws := some (0, ReadyState.opened), nextSocketId := 1,
    reconnectAttempts := 0, isReconnecting := false,
    isManuallyDisconnected := false, pendingTimers := [], scheduledLog := [] }

/-- Witness for C5: `connect()` on an Open manager changes nothing. -/
theorem connect_idempotent_witness :
    ChatWebSocket.connect openManagerState = openManagerState :=
  (connect_idempotent openManagerState (Or.inl rfl)).1

/-- C6: the transport-open handler resets the attempt counter to 0 and
clears the reconnecting flag; consequently the next unexpected close starts
a fresh backoff cycle whose first scheduled delay is `reconnectDelay * 1`. -/
theorem open_resets_backoff (s : ChatWebSocketState) (i j : Nat)
    (h : s.isManuallyDisconnected = false) :
    (ChatWebSocket.handleOpen i s).reconnectAttempts = 0 ∧
    (ChatWebSocket.handleOpen i s).isReconnecting = false ∧
    (ChatWebSocket.handleClose j (ChatWebSocket.handleOpen i s)).scheduledLog
      = (ChatWebSocket.handleOpen i s).scheduledLog ++ [reconnectDelay * 1] := by
  refine ⟨rfl, rfl, ?_⟩
  have hfields : (ChatWebSocket.handleOpen i s).isManuallyDisconnected = false ∧
      (ChatWebSocket.handleOpen i s).reconnectAttempts = 0 ∧
      (ChatWebSocket.handleOpen i s).isReconnecting = false := by
    unfold ChatWebSocket.handleOpen
    split <;> simp [h]
  generalize hs1 : ChatWebSocket.handleOpen i s = s1 at hfields ⊢
  unfold ChatWebSocket.handleClose
  split
  · rw [if_neg (by simp [hfields.1])]
    unfold ChatWebSocket.attemptReconnect
    rw [if_neg (by simp [hfields.1, hfields.2.1, hfields.2.2, maxReconnectAttempts])]
    simp [hfields.2.1]
  · rw [if_neg (by simp [hfields.1])]
    unfold ChatWebSocket.attemptReconnect
    rw [if_neg (by simp [hfields.1, hfields.2.1, hfields.2.2, maxReconnectAttempts])]
    simp [hfields.2.1]

/-- Witness for C6: an open of socket 0 followed by an unexpected close on a
manager that had already spent its attempt budget bookkeeping. -/
theorem open_resets_backoff_witness :
    (ChatWebSocket.handleClose 0
        (ChatWebSocket.handleOpen 0
          { ws := some (0, ReadyState.connecting), nextSocketId := 1,
            reconnectAttempts := 1, isReconnecting := true,
            isManuallyDisconnected := false, pendingTimers := [],
            scheduledLog := [1000] })).scheduledLog
      = [1000] ++ [reconnectDelay * 1] :=
  (open_resets_backoff
      { ws := some (0, ReadyState.connecting), nextSocketId := 1,
        reconnectAttempts := 1, isReconnecting := true,
        isManuallyDisconnected := false, pendingTimers := [],
        scheduledLog := [1000] } 0 0 rfl).2.2

/-- C9: when the session id changes while a manager is owned, the binding
performs exactly, in this order: cancel the debounce timer, clear all
handlers on the old manager, disconnect it, drop its reference, construct a
new manager for the new id, register fresh handlers, and schedule the
debounced `connect()`; `connect()` itself is not called during the switch,
it runs only when the scheduled timer fires, and a teardown executed before
the timer fires cancels the scheduled `connect()`, which then never runs. -/
theorem session_switch_teardown_order (st : BindingState) (old sid : String)
    (h1 : st.wsRef = some old) (h2 : sid ≠ "") :
    (switchSession sid st).2 =
      [BindAction.cancelScheduledConnect, BindAction.clearHandlersOld,
       BindAction.disconnectOld, BindAction.dropOldRef,
       BindAction.constructNew sid, BindAction.registerHandlers,
       BindAction.scheduleConnect 100] ∧
    BindAction.connectNow ∉ (switchSession sid st).2 ∧
    (bindingTimerFire (switchSession sid st).1).2 = [BindAction.connectNow] ∧
    (bindingTimerFire (cleanupEffect (switchSession sid st).1).1).2 = [] := by
  obtain ⟨w, p⟩ := st
  dsimp only at h1
  subst h1
  refine ⟨?_, ?_, ?_, ?_⟩ <;>
    simp [switchSession, cleanupEffect, setupEffect, bindingTimerFire, h2]

/-- Witness for C9: switching from session `"s1"` to session `"s2"` with no
debounce timer pending. -/
theorem session_switch_teardown_order_witness :
    (switchSession "s2" { wsRef := some "s1", pendingConnect := none }).2 =
      [BindAction.cancelScheduledConnect, BindAction.clearHandlersOld,
       BindAction.disconnectOld, BindAction.dropOldRef,
       BindAction.constructNew "s2", BindAction.registerHandlers,
       BindAction.scheduleConnect 100] :=
  (session_switch_teardown_order
      { wsRef := some "s1", pendingConnect := none } "s1" "s2" rfl
      (by decide)).1

/-- C10: the UI send handler transmits nothing while a stream is active or
when the trimmed input is empty (in particular for whitespace-only input),
and when it does transmit, the command has type `"message"`, its content is
the whitespace-trimmed input, it carries the current `use_rag` flag, and
the input field is cleared. -/
theorem handleSendMessage_guard (s : ChatUIState) :
    (s.isStreaming = true ∨ s.inputMessage.trim = "" →
       (handleSendMessage s).2 = none) ∧
    (∀ c : OutCommand, (handleSendMessage s).2 = some c →
       c.type = "message" ∧ c.content = s.inputMessage.trim ∧
       c.use_rag = s.useRAG ∧ (handleSendMessage s).1.inputMessage = "") := by
  constructor
  · intro h
    rcases h with h | h
    · simp [handleSendMessage, h]
    · simp [handleSendMessage, h]
  · intro c hc
    by_cases hcond : s.inputMessage.trim = "" ∨ s.hasWs = false ∨
        s.isStreaming = true
    · rw [handleSendMessage, if_pos hcond] at hc
      exact absurd hc (by simp)
    · rw [handleSendMessage, if_neg hcond] at hc
      rw [handleSendMessage, if_neg hcond]
      cases hc
      exact ⟨rfl, rfl, rfl, rfl⟩

/-- Witness for C10: nothing is sent while a stream is active, even with a
non-empty input and a live socket reference. -/
theorem handleSendMessage_guard_witness :
    (handleSendMessage
        { inputMessage := "hello", isStreaming := true, useRAG := false,
          hasWs := true }).2 = none :=
  (handleSendMessage_guard
      { inputMessage := "hello", isStreaming := true, useRAG := false,
        hasWs := true }).1 (Or.inl rfl)

end BdChat
